import Mathlib

/-!
Verification of the parameter-estimation engine of `keppy/estimate.py`
(class `OrbitalParams`): the multi-dataset Gaussian log-likelihood, the
flat box prior, the log-posterior, the constructor's validation and
bounds-concatenation logic, and the maximum-likelihood driver.

The embedding is generic over a linearly ordered field `α` standing for the
Python floats (so every theorem holds in particular over `ℝ`, while concrete
witnesses evaluate over `ℚ`).  The transcendental ingredients — the natural
logarithm `np.log` and the constant `2 * np.pi` — are abstracted as a
function `log : α → α` and a constant `twopi : α`, which is sound because
every property proved here is structural in them.  The external orbit model
(`keppy.orbit.BinarySystem(...).get_rvs`), which the specification treats as
an opaque collaborator, is abstracted as a function argument, and likewise
the bounded minimizer `scipy.optimize.minimize`; theorems quantify over
them.
-/

namespace Keppy

variable {α : Type} [LinearOrderedField α]

/-- A Python float value that is either finite or `-np.inf`; the prior and
the posterior take values in this type (`negInf` models `-np.inf`). -/
inductive Xfloat (α : Type) where
  | negInf : Xfloat α
  | fin : α → Xfloat α
deriving DecidableEq

/-- Addition on `Xfloat`: `-inf` absorbs, finite values add, mirroring IEEE
addition on the values that actually occur (`0.0`, `-inf`, finite). -/
def Xfloat.add : Xfloat α → Xfloat α → Xfloat α
  | .fin a, .fin b => .fin (a + b)
  | _, _ => .negInf

/-- `np.isfinite` on an `Xfloat`. -/
def Xfloat.isfinite : Xfloat α → Bool
  | .negInf => false
  | .fin _ => true

/-- The construction-time error taxonomy of the estimator (the spec's
`ConfigurationError`): the source raises `TypeError` or `ValueError`. -/
inductive ConfigurationError where
  | typeError : String → ConfigurationError
  | valueError : String → ConfigurationError
deriving DecidableEq

/-- The `bounds_vz` argument: a single `(low, high)` pair when
`n_datasets == 1`, or a sequence of pairs otherwise (its documented
`numpy.shape` is `(2,)` resp. `(n_datasets, 2)`). -/
inductive BoundsVz (α : Type) where
  | single : α × α → BoundsVz α
  | multi : List (α × α) → BoundsVz α
deriving DecidableEq

/-- The external orbit model: arguments `log_k`, `log_period`, `t0`, `w`,
`log_e`, `vz`, then the sampling times `ts` and the point count `nt`, as in
`orbit.BinarySystem(log_k=..., ..., vz=...).get_rvs(ts=..., nt=...)`. -/
def OrbitModel (α : Type) : Type :=
  α → α → α → α → α → α → List α → ℕ → List α

/-- The state of `OrbitalParams` after a successful `__init__`. -/
structure OrbitalParams (α : Type) where
  t : List (List α)
  rv : List (List α)
  rv_err : List (List α)
  guess : List α
  bounds : List (α × α)
  n_datasets : ℕ
deriving DecidableEq

/-- The default value of the `bounds` argument of `OrbitalParams.__init__`:
`((-4, 4), (-4, 4), (0, 10000), (0, 360), (-4, -4.3E-5))`. -/
def default_bounds : List (α × α) :=
  [(-4, 4), (-4, 4), (0, 10000), (0, 360), (-4, -(43 / 1000000))]

/-- `OrbitalParams.__init__`.  `n_datasets` is an integer (the source's
`isinstance(n_datasets, int)` type check is subsumed by the typing);
`n_datasets < 0` raises `ValueError`, then both branches check
`len(guess) != 5 + n_datasets` before storing `guess` and concatenating the
bounds: for `n_datasets == 1` the `bounds_vz` pair is appended as a single
element, otherwise `bounds_vz` is concatenated as a sequence.  The source
performs no shape check on `bounds_vz`; a `bounds_vz` whose shape matches
neither documented form would produce a malformed heterogeneous `bounds`
tuple in Python, which this typed model reports as a `typeError` instead
(no claim depends on that corner). -/
def init (t rv rv_err : List (List α)) (guess : List α)
    (bounds_vz : BoundsVz α) (bounds : List (α × α)) (n_datasets : ℤ) :
    Except ConfigurationError (OrbitalParams α) :=
  if n_datasets < 0 then
    .error (.valueError "n_datasets must be greater than zero")
  else
    let D : ℕ := n_datasets.toNat
    if D = 1 then
      if guess.length ≠ 5 + D then
        .error (.valueError "guess must have a length equal to 5 + n_datasets")
      else
        match bounds_vz with
        | .single p => .ok ⟨t, rv, rv_err, guess, bounds ++ [p], D⟩
        | .multi _ => .error (.typeError "bounds_vz shape mismatch")
    else
      if guess.length ≠ 5 + D then
        .error (.valueError "guess must have a length equal to 5 + n_datasets")
      else
        match bounds_vz with
        | .multi ps => .ok ⟨t, rv, rv_err, guess, bounds ++ ps, D⟩
        | .single _ => .error (.typeError "bounds_vz shape mismatch")

/-- The per-sample terms of one dataset's likelihood sum, zipping the
observed `rv`, the model prediction and the uncertainty `rv_err`:
`(rv - model) ** 2 * inv_sigma2 + np.log(2. * np.pi / inv_sigma2)` with
`inv_sigma2 = 1. / rv_err ** 2`. -/
def gauss_terms (log : α → α) (twopi : α) : List α → List α → List α → List α
  | r :: rs, m :: ms, e :: es =>
      let inv_sigma2 := 1 / e ^ 2
      ((r - m) ^ 2 * inv_sigma2 + log (twopi / inv_sigma2)) ::
        gauss_terms log twopi rs ms es
  | _, _, _ => []

/-- The contribution of dataset `i` to the accumulated sum in
`OrbitalParams.lnlike`: the orbit model is built from `theta[0..4]` with
`vz=theta[5 + i]` and evaluated at `ts=self.t[i]`, `nt=len(self.t[i])`. -/
def dataset_like (log : α → α) (twopi : α) (orbit : OrbitModel α)
    (self : OrbitalParams α) (theta : List α) (i : ℕ) : α :=
  let ti := self.t.getD i []
  let nt := ti.length
  let model := orbit (theta.getD 0 0) (theta.getD 1 0) (theta.getD 2 0)
    (theta.getD 3 0) (theta.getD 4 0) (theta.getD (5 + i) 0) ti nt
  (gauss_terms log twopi (self.rv.getD i []) model (self.rv_err.getD i [])).sum

/-- `OrbitalParams.lnlike`: starts from `sum_like = 0`, accumulates the
per-dataset sums over `i in range(self.n_datasets)`, then multiplies by
`-0.5`. -/
def lnlike (log : α → α) (twopi : α) (orbit : OrbitModel α)
    (self : OrbitalParams α) (theta : List α) : α :=
  -(1 / 2) * ((List.range self.n_datasets).foldl
    (fun acc i => acc + dataset_like log twopi orbit self theta i) 0)

/-- `OrbitalParams.flat`: tests
`self.bounds[i][0] < theta[i] < self.bounds[i][1]` for every
`i in range(len(theta))`; returns `0.0` when all pass and `-np.inf`
otherwise. -/
def flat (self : OrbitalParams α) (theta : List α) : Xfloat α :=
  let params := (List.range theta.length).map
    (fun i => decide ((self.bounds.getD i (0, 0)).1 < theta.getD i 0) &&
      decide (theta.getD i 0 < (self.bounds.getD i (0, 0)).2))
  if params.all (fun b => b) then .fin 0 else .negInf

/-- `OrbitalParams.lnprob`: evaluates the flat prior; if it is not finite
returns `-np.inf` (without calling the orbit model), else returns
`lp + self.lnlike(theta)`. -/
def lnprob (log : α → α) (twopi : α) (orbit : OrbitModel α)
    (self : OrbitalParams α) (theta : List α) : Xfloat α :=
  let lp := flat self theta
  if lp.isfinite = false then .negInf
  else lp.add (.fin (lnlike log twopi orbit self theta))

/-- The result dictionary of the external bounded minimizer
(`scipy.optimize.minimize`): best point `x`, iteration count `nit`,
`success` flag and termination `message`. -/
structure MinimizeResult (α : Type) where
  x : List α
  nit : ℕ
  success : Bool
  message : String

/-- The external bounded minimizer, abstracted: arguments are the objective
function, `x0`, `bounds`, `maxiter` and `disp`. -/
def Minimizer (α : Type) : Type :=
  (List α → α) → List α → List (α × α) → ℕ → Bool → MinimizeResult α

/-- `OrbitalParams.ml_orbit`: minimizes `nll = lambda *args:
-self.lnlike(*args)` from `x0=self.guess` with `bounds=self.bounds` and
options `maxiter`, `disp`, and returns `result["x"]` unconditionally (the
`disp` printing is I/O and not modelled). -/
def ml_orbit (minimize : Minimizer α) (log : α → α) (twopi : α)
    (orbit : OrbitModel α) (self : OrbitalParams α)
    (maxiter : ℕ) (disp : Bool) : List α :=
  let nll := fun theta => -(lnlike log twopi orbit self theta)
  let result := minimize nll self.guess self.bounds maxiter disp
  result.x

/-- The specification's per-sample Gaussian terms, written as in §4.2:
`(rv_i[k] - model_i[k])^2 / rv_err_i[k]^2 + ln(2π·rv_err_i[k]^2)`. -/
def spec_gauss_terms (log : α → α) (twopi : α) : List α → List α → List α → List α
  | r :: rs, m :: ms, e :: es =>
      ((r - m) ^ 2 / e ^ 2 + log (twopi * e ^ 2)) ::
        spec_gauss_terms log twopi rs ms es
  | _, _, _ => []

/-- The specification's per-dataset sum `Σ_k [...]` for dataset `i`, with
`model_i` the orbit model at `theta[0..4]` and `vz = theta[5+i]` evaluated
at `t_i`. -/
def spec_dataset_like (log : α → α) (twopi : α) (orbit : OrbitModel α)
    (self : OrbitalParams α) (theta : List α) (i : ℕ) : α :=
  let ti := self.t.getD i []
  let model := orbit (theta.getD 0 0) (theta.getD 1 0) (theta.getD 2 0)
    (theta.getD 3 0) (theta.getD 4 0) (theta.getD (5 + i) 0) ti ti.length
  (spec_gauss_terms log twopi (self.rv.getD i []) model
    (self.rv_err.getD i [])).sum

/-- The specification's log-likelihood, written as in §4.2: `-0.5` times the
sum over datasets of the per-sample Gaussian sums. -/
def spec_lnlike (log : α → α) (twopi : α) (orbit : OrbitModel α)
    (self : OrbitalParams α) (theta : List α) : α :=
  -(1 / 2) * ((List.range self.n_datasets).map
    (spec_dataset_like log twopi orbit self theta)).sum

/-! ### Concrete fixtures for witnesses (over `ℚ`) -/

/-- A concrete stand-in for the natural logarithm in witnesses. -/
def log0 : ℚ → ℚ := fun x => x

/-- A concrete orbit model for witnesses: predicted velocity is `t + vz`. -/
def orbit0 : OrbitModel ℚ := fun _ _ _ _ _ vz ts _ => ts.map (fun t => t + vz)

/-- A concrete single-dataset estimator state for witnesses (its bounds
use integer literals so that concrete evaluation is kernel-reducible). -/
def est0 : OrbitalParams ℚ :=
  ⟨[[1, 2]], [[3, 4]], [[1, 2]], [0, 0, 0, 0, 0, 0],
    [(-4, 4), (-4, 4), (0, 10000), (0, 360), (-4, -1), (-1, 1)], 1⟩

/-- A concrete minimizer for witnesses that reports non-convergence. -/
def min0 : Minimizer ℚ :=
  fun _ _ _ _ _ => ⟨[9], 200, false, "Max. number of function evaluations reached"⟩

/-! ### Helper lemmas -/

/-- Folding `+ f i` from `a` is `a` plus the sum of the mapped list. -/
theorem foldl_add_eq_sum {β : Type} (f : β → α) :
    ∀ (l : List β) (a : α),
      l.foldl (fun acc i => acc + f i) a = a + (l.map f).sum := by
  intro l
  induction l with
  | nil => intro a; simp
  | cons x xs ih => intro a; simp [ih, add_assoc]

/-- The per-sample terms computed by the source agree with the
specification's terms: `x * (1 / e^2) = x / e^2` and
`twopi / (1 / e^2) = twopi * e^2` (both hold in any field, including the
`e = 0` corner under Lean's division conventions). -/
theorem gauss_terms_eq_spec (log : α → α) (twopi : α) :
    ∀ (rs ms es : List α),
      gauss_terms log twopi rs ms es = spec_gauss_terms log twopi rs ms es := by
  intro rs
  induction rs with
  | nil => intro ms es; cases ms <;> cases es <;> rfl
  | cons r rs ih =>
      intro ms es
      cases ms with
      | nil => rfl
      | cons m ms =>
          cases es with
          | nil => rfl
          | cons e es =>
              have harg : twopi / (1 / e ^ 2) = twopi * e ^ 2 := by
                rw [one_div, div_eq_mul_inv, inv_inv]
              simp only [gauss_terms, spec_gauss_terms, ih, harg, mul_one_div]

/-- The source's per-dataset accumulation step coincides with the
specification's per-dataset sum, as functions of the dataset index. -/
theorem dataset_like_eq_spec (log : α → α) (twopi : α) (orbit : OrbitModel α)
    (self : OrbitalParams α) (theta : List α) :
    dataset_like log twopi orbit self theta
      = spec_dataset_like log twopi orbit self theta := by
  funext i
  simp only [dataset_like, spec_dataset_like, gauss_terms_eq_spec]

/-- The flat prior takes only the values `0.0` and `-inf`. -/
theorem flat_cases (self : OrbitalParams α) (theta : List α) :
    flat self theta = .fin 0 ∨ flat self theta = .negInf := by
  simp only [flat]
  split
  · exact Or.inl rfl
  · exact Or.inr rfl

/-- The flat prior is `0.0` exactly when every coordinate of `theta` lies
strictly inside its bounds pair. -/
theorem flat_fin_iff (self : OrbitalParams α) (theta : List α) :
    flat self theta = .fin 0 ↔ ∀ j < theta.length,
      (self.bounds.getD j (0, 0)).1 < theta.getD j 0 ∧
      theta.getD j 0 < (self.bounds.getD j (0, 0)).2 := by
  simp only [flat]
  constructor
  · intro h j hj
    split at h
    · rename_i hall
      simp only [List.all_eq_true, List.mem_map, List.mem_range] at hall
      have := hall _ ⟨j, hj, rfl⟩
      simpa [Bool.and_eq_true, decide_eq_true_eq] using this
    · exact absurd h (by simp)
  · intro h
    split
    · rfl
    · rename_i hall
      exfalso
      apply hall
      simp only [List.all_eq_true, List.mem_map, List.mem_range]
      rintro b ⟨j, hj, rfl⟩
      simpa [Bool.and_eq_true, decide_eq_true_eq] using h j hj

/-! ### Claim theorems -/

/-- C1: for every `theta` of length `5 + D`, `lnlike` returns `-0.5` times
the sum over datasets `i` of
`Σ_k [(rv_i[k] - model_i[k])^2 / rv_err_i[k]^2 + ln(2π·rv_err_i[k]^2)]`,
where `model_i` is the external orbit model at `t_i` with orbital
parameters `theta[0..4]` and the offset `theta[5+i]` passed as the model's
systemic-velocity argument. -/
theorem lnlike_eq_spec (log : α → α) (twopi : α) (orbit : OrbitModel α)
    (self : OrbitalParams α) (theta : List α)
    (htheta : theta.length = 5 + self.n_datasets) :
    lnlike log twopi orbit self theta = spec_lnlike log twopi orbit self theta := by
  unfold lnlike spec_lnlike
  rw [foldl_add_eq_sum, zero_add, dataset_like_eq_spec]

/-- Witness for C1 at a concrete single-dataset estimator. -/
theorem lnlike_eq_spec_witness :
    ([0, 0, 0, 0, 0, 1] : List ℚ).length = 5 + est0.n_datasets ∧
    lnlike log0 7 orbit0 est0 [0, 0, 0, 0, 0, 1]
      = spec_lnlike log0 7 orbit0 est0 [0, 0, 0, 0, 0, 1] :=
  ⟨by decide, lnlike_eq_spec log0 7 orbit0 est0 [0, 0, 0, 0, 0, 1] (by decide)⟩

/-- C2: the log-posterior is log-prior plus log-likelihood: when the flat
prior is `-inf` the posterior is `-inf` for every orbit model (so the orbit
model is never consulted for such `theta`), and when the prior is finite
(`0.0`) the posterior equals the log-likelihood. -/
theorem lnprob_prior_plus_like (log : α → α) (twopi : α)
    (self : OrbitalParams α) (theta : List α) :
    (flat self theta = .negInf → ∀ orbit : OrbitModel α,
      lnprob log twopi orbit self theta = .negInf) ∧
    (flat self theta = .fin 0 → ∀ orbit : OrbitModel α,
      lnprob log twopi orbit self theta
        = .fin (lnlike log twopi orbit self theta)) := by
  constructor
  · intro h orbit
    simp [lnprob, h, Xfloat.isfinite]
  · intro h orbit
    simp [lnprob, h, Xfloat.isfinite, Xfloat.add, zero_add]

/-- Witness for C2: a `theta` outside the box gives `-inf` without the
orbit model mattering, and a `theta` inside the box gives the likelihood. -/
theorem lnprob_prior_plus_like_witness :
    lnprob log0 7 orbit0 est0 [0, 0, 0, 0, 0, 2] = .negInf ∧
    lnprob log0 7 orbit0 est0 [0, 0, (1 : ℚ), 1, -2, 0]
      = .fin (lnlike log0 7 orbit0 est0 [0, 0, (1 : ℚ), 1, -2, 0]) :=
  ⟨(lnprob_prior_plus_like log0 7 est0 [0, 0, 0, 0, 0, 2]).1 (by decide) orbit0,
   (lnprob_prior_plus_like log0 7 est0 [0, 0, (1 : ℚ), 1, -2, 0]).2 (by decide) orbit0⟩

/-- C3: the flat prior is `0.0` exactly when
`bounds[j][0] < theta[j] < bounds[j][1]` strictly at every position `j` of
`theta`, and `-inf` otherwise; a coordinate exactly on an endpoint forces
`-inf`, and no value other than `0.0` and `-inf` occurs. -/
theorem flat_characterization (self : OrbitalParams α) (theta : List α)
    (hlen : theta.length ≤ self.bounds.length) :
    (flat self theta = .fin 0 ↔ ∀ j < theta.length,
      (self.bounds.getD j (0, 0)).1 < theta.getD j 0 ∧
      theta.getD j 0 < (self.bounds.getD j (0, 0)).2) ∧
    (flat self theta = .fin 0 ∨ flat self theta = .negInf) ∧
    (∀ j < theta.length,
      (theta.getD j 0 = (self.bounds.getD j (0, 0)).1 ∨
       theta.getD j 0 = (self.bounds.getD j (0, 0)).2) →
      flat self theta = .negInf) := by
  refine ⟨flat_fin_iff self theta, flat_cases self theta, ?_⟩
  intro j hj hend
  rcases flat_cases self theta with h | h
  · exfalso
    rcases (flat_fin_iff self theta).mp h j hj with ⟨hlo, hhi⟩
    rcases hend with he | he
    · exact absurd hlo (by rw [he]; exact lt_irrefl _)
    · exact absurd hhi (by rw [he]; exact lt_irrefl _)
  · exact h

/-- Witness for C3 at a concrete estimator whose bounds have the same
length as `theta`. -/
theorem flat_characterization_witness :
    (([0, 0, (1 : ℚ), 1, -2, 0] : List ℚ).length ≤ est0.bounds.length) ∧
    flat est0 [0, 0, (1 : ℚ), 1, -2, 0] = .fin 0 ∧
    flat est0 [0, 0, (0 : ℚ), 1, -2, 0] = .negInf :=
  ⟨by decide,
   (flat_characterization est0 [0, 0, (1 : ℚ), 1, -2, 0] (by decide)).1.mpr
     (by decide),
   (flat_characterization est0 [0, 0, (0 : ℚ), 1, -2, 0] (by decide)).2.2 2
     (by decide) (Or.inl (by decide))⟩

/-- Inversion for a successful construction: the count was non-negative,
the guess length matched, and the stored state is determined by the shape
of `bounds_vz` and the branch taken on `n_datasets == 1`. -/
theorem init_ok_cases (t rv rv_err : List (List α)) (guess : List α)
    (bvz : BoundsVz α) (bounds : List (α × α)) (n : ℤ)
    (self : OrbitalParams α)
    (h : init t rv rv_err guess bvz bounds n = .ok self) :
    0 ≤ n ∧ guess.length = 5 + n.toNat ∧
      ((∃ p, bvz = .single p ∧ n.toNat = 1 ∧
          self = ⟨t, rv, rv_err, guess, bounds ++ [p], n.toNat⟩) ∨
       (∃ ps, bvz = .multi ps ∧ n.toNat ≠ 1 ∧
          self = ⟨t, rv, rv_err, guess, bounds ++ ps, n.toNat⟩)) := by
  cases bvz with
  | single p =>
      simp only [init] at h
      split_ifs at h with hn hD hg hg
      all_goals simp only [reduceCtorEq, Except.ok.injEq] at h
      subst h
      exact ⟨by omega, by omega, Or.inl ⟨p, rfl, by omega, rfl⟩⟩
  | multi ps =>
      simp only [init] at h
      split_ifs at h with hn hD hg hg
      all_goals simp only [reduceCtorEq, Except.ok.injEq] at h
      subst h
      exact ⟨by omega, by omega, Or.inr ⟨ps, rfl, by omega, rfl⟩⟩

/-- C4: construction rejects a negative `n_datasets` with a configuration
error, rejects `len(guess) ≠ 5 + n_datasets` with a configuration error for
every non-negative dataset count, and on success stores the guess
unchanged. -/
theorem init_validation :
    (∀ (t rv rv_err : List (List α)) (guess : List α) (bvz : BoundsVz α)
        (bounds : List (α × α)) (n : ℤ), n < 0 →
      init t rv rv_err guess bvz bounds n
        = .error (.valueError "n_datasets must be greater than zero")) ∧
    (∀ (t rv rv_err : List (List α)) (guess : List α) (bvz : BoundsVz α)
        (bounds : List (α × α)) (n : ℤ), 0 ≤ n →
        guess.length ≠ 5 + n.toNat →
      init t rv rv_err guess bvz bounds n
        = .error (.valueError
            "guess must have a length equal to 5 + n_datasets")) ∧
    (∀ (t rv rv_err : List (List α)) (guess : List α) (bvz : BoundsVz α)
        (bounds : List (α × α)) (n : ℤ) (self : OrbitalParams α),
      init t rv rv_err guess bvz bounds n = .ok self →
      self.guess = guess) := by
  refine ⟨?_, ?_, ?_⟩
  · intro t rv rv_err guess bvz bounds n hn
    simp [init, hn]
  · intro t rv rv_err guess bvz bounds n hn hlen
    rw [init, if_neg (by omega)]
    by_cases h1 : n.toNat = 1
    · simp [h1, h1 ▸ hlen]
    · simp [h1, hlen]
  · intro t rv rv_err guess bvz bounds n self h
    obtain ⟨-, -, hcase⟩ := init_ok_cases t rv rv_err guess bvz bounds n self h
    rcases hcase with ⟨p, -, -, rfl⟩ | ⟨ps, -, -, rfl⟩ <;> rfl

/-- Witness for C4: a negative count, a guess of the wrong length for
`D = 0`, and a successful construction that stores the guess. -/
theorem init_validation_witness :
    init ([] : List (List ℚ)) [] [] [0, 0, 0, 0, 0, 0]
        (.single (0, 1)) default_bounds (-1)
      = .error (.valueError "n_datasets must be greater than zero") ∧
    init ([] : List (List ℚ)) [] [] [0, 0, 0]
        (.multi []) default_bounds 0
      = .error (.valueError
          "guess must have a length equal to 5 + n_datasets") ∧
    (OrbitalParams.mk ([] : List (List ℚ)) [] [] [0, 0, 0, 0, 0, 0]
        (default_bounds ++ [(0, 1)]) 1).guess = [0, 0, 0, 0, 0, 0] :=
  ⟨init_validation.1 [] [] [] [0, 0, 0, 0, 0, 0] (.single (0, 1))
      default_bounds (-1) (by decide),
   init_validation.2.1 [] [] [] [0, 0, 0] (.multi []) default_bounds 0
      (by decide) (by decide),
   init_validation.2.2 [] [] [] [0, 0, 0, 0, 0, 0] (.single (0, 1))
      default_bounds 1 _ rfl⟩

/-- C5: with 5 orbital bound pairs, `bounds_vz` is appended as one element
when `n_datasets == 1` (resulting length 6), and concatenated directly when
`n_datasets == 3` with 3 pairs (resulting length 8). -/
theorem init_bounds_asymmetry :
    (∀ (t rv rv_err : List (List α)) (guess : List α) (p : α × α)
        (bounds : List (α × α)), bounds.length = 5 → guess.length = 6 →
      init t rv rv_err guess (.single p) bounds 1
          = .ok ⟨t, rv, rv_err, guess, bounds ++ [p], 1⟩ ∧
        (bounds ++ [p]).length = 6) ∧
    (∀ (t rv rv_err : List (List α)) (guess : List α) (ps : List (α × α))
        (bounds : List (α × α)),
        bounds.length = 5 → ps.length = 3 → guess.length = 8 →
      init t rv rv_err guess (.multi ps) bounds 3
          = .ok ⟨t, rv, rv_err, guess, bounds ++ ps, 3⟩ ∧
        (bounds ++ ps).length = 8) := by
  constructor
  · intro t rv rv_err guess p bounds hb hg
    constructor
    · simp [init, hg]
    · simp [hb]
  · intro t rv rv_err guess ps bounds hb hp hg
    constructor
    · rw [init]
      norm_num
      simp [hg]
    · simp [hb, hp]

/-- Witness for C5 at concrete bounds and guesses. -/
theorem init_bounds_asymmetry_witness :
    (init ([] : List (List ℚ)) [] [] [0, 0, 0, 0, 0, 0] (.single (-1, 1))
        default_bounds 1
      = .ok ⟨[], [], [], [0, 0, 0, 0, 0, 0], default_bounds ++ [(-1, 1)], 1⟩ ∧
      ((default_bounds : List (ℚ × ℚ)) ++ [(-1, 1)]).length = 6) ∧
    (init ([] : List (List ℚ)) [] [] [0, 0, 0, 0, 0, 0, 0, 0]
        (.multi [(-1, 1), (-1, 1), (-1, 1)]) default_bounds 3
      = .ok ⟨[], [], [], [0, 0, 0, 0, 0, 0, 0, 0],
          default_bounds ++ [(-1, 1), (-1, 1), (-1, 1)], 3⟩ ∧
      ((default_bounds : List (ℚ × ℚ))
          ++ [(-1, 1), (-1, 1), (-1, 1)]).length = 8) :=
  ⟨init_bounds_asymmetry.1 [] [] [] [0, 0, 0, 0, 0, 0] (-1, 1)
      default_bounds (by decide) (by decide),
   init_bounds_asymmetry.2 [] [] [] [0, 0, 0, 0, 0, 0, 0, 0]
      [(-1, 1), (-1, 1), (-1, 1)] default_bounds
      (by decide) (by decide) (by decide)⟩

/-- C6 counterexample: the source never checks that `bounds_vz` has
`n_datasets` pairs, so a successful construction with `n_datasets = 2`,
a guess of length 7 and three `bounds_vz` pairs stores a bounds sequence of
length 8 ≠ 7. -/
theorem bounds_length_mismatch_cex :
    init ([] : List (List ℚ)) [] [] [0, 0, 0, 0, 0, 0, 0]
        (.multi [(0, 1), (0, 1), (0, 1)]) default_bounds 2
      = .ok ⟨[], [], [], [0, 0, 0, 0, 0, 0, 0],
          default_bounds ++ [(0, 1), (0, 1), (0, 1)], 2⟩ ∧
    ((default_bounds : List (ℚ × ℚ)) ++ [(0, 1), (0, 1), (0, 1)]).length
      ≠ ([0, 0, 0, 0, 0, 0, 0] : List ℚ).length :=
  ⟨rfl, by decide⟩

/-- C6 amended: for every successfully constructed estimator whose
`bounds` argument has the 5 orbital pairs and whose `bounds_vz` conforms to
its documented shape (`n_datasets` pairs in the sequence case), the stored
bounds length equals the stored guess length, which is `5 + n_datasets`;
the estimator state is immutable, so this holds for every later evaluator
call. -/
theorem bounds_length_invariant (t rv rv_err : List (List α))
    (guess : List α) (bvz : BoundsVz α) (bounds : List (α × α)) (n : ℤ)
    (self : OrbitalParams α) (hb : bounds.length = 5)
    (hvz : ∀ ps, bvz = .multi ps → ps.length = n.toNat)
    (h : init t rv rv_err guess bvz bounds n = .ok self) :
    self.bounds.length = self.guess.length ∧
    self.guess.length = 5 + self.n_datasets := by
  obtain ⟨-, hg, hcase⟩ := init_ok_cases t rv rv_err guess bvz bounds n self h
  rcases hcase with ⟨p, -, hD, rfl⟩ | ⟨ps, hps, -, rfl⟩
  · constructor
    · simp [hb, hD, hg]
    · simpa using hg
  · have hlen := hvz ps hps
    constructor
    · simp [hb, hlen, hg]
    · simpa using hg

/-- Witness for C6 amended at a concrete two-dataset construction with two
`bounds_vz` pairs. -/
theorem bounds_length_invariant_witness :
    (OrbitalParams.mk ([] : List (List ℚ)) [] [] [0, 0, 0, 0, 0, 0, 0]
        (default_bounds ++ [(0, 1), (0, 1)]) 2).bounds.length
      = [0, 0, 0, 0, 0, 0, 0].length ∧
    ([0, 0, 0, 0, 0, 0, 0] : List ℚ).length
      = 5 + (OrbitalParams.mk ([] : List (List ℚ)) [] [] [0, 0, 0, 0, 0, 0, 0]
          (default_bounds ++ [(0, 1), (0, 1)]) 2).n_datasets :=
  bounds_length_invariant [] [] [] [0, 0, 0, 0, 0, 0, 0]
    (.multi [(0, 1), (0, 1)]) default_bounds 2 _
    (by decide) (fun ps hps => by cases hps; decide) rfl

/-- C7 counterexample: position 1 of the default bounds — the bound of
`log10(P)`, since `theta[1]` is passed as `log_period` — is `(-4, 4)`, not
`(0, 10000)`. -/
theorem default_bounds_log_period_cex :
    (default_bounds : List (ℚ × ℚ)).getD 1 (0, 0) = (-4, 4) ∧
    ((-4 : ℚ), (4 : ℚ)) ≠ ((0 : ℚ), (10000 : ℚ)) :=
  ⟨rfl, by decide⟩

/-- C7 amended: the default caller-overridable bounds place `log10(K)`
(position 0) in `[-4, 4]` and `log10(P)` (position 1) also in `[-4, 4]`;
`[0, 10000]` is the default bound of `t0` (position 2). -/
theorem default_bounds_values :
    (default_bounds : List (α × α)).getD 0 (0, 0) = (-4, 4) ∧
    (default_bounds : List (α × α)).getD 1 (0, 0) = (-4, 4) ∧
    (default_bounds : List (α × α)).getD 2 (0, 0) = (0, 10000) ∧
    (default_bounds : List (α × α)).length = 5 :=
  ⟨rfl, rfl, rfl, rfl⟩

/-- C8: the ML driver returns exactly the `x` reported by the bounded
minimizer applied to the negated log-likelihood (not the posterior — the
prior is not consulted), started at the stored guess with the stored
bounds and the caller's `maxiter` and `disp`; the result is returned
whatever the minimizer's success flag or message says, so non-convergence
does not raise. -/
theorem ml_orbit_minimizes_neg_lnlike (minimize : Minimizer α)
    (log : α → α) (twopi : α) (orbit : OrbitModel α)
    (self : OrbitalParams α) (maxiter : ℕ) (disp : Bool)
    (r : MinimizeResult α)
    (h : minimize (fun theta => -(lnlike log twopi orbit self theta))
        self.guess self.bounds maxiter disp = r) :
    ml_orbit minimize log twopi orbit self maxiter disp = r.x := by
  rw [ml_orbit, h]

/-- Witness for C8: a concrete minimizer that reports non-convergence
(`success = false`); the driver still returns its reported point. -/
theorem ml_orbit_minimizes_neg_lnlike_witness :
    ml_orbit min0 log0 7 orbit0 est0 200 false = [9] :=
  ml_orbit_minimizes_neg_lnlike min0 log0 7 orbit0 est0 200 false
    ⟨[9], 200, false, "Max. number of function evaluations reached"⟩ rfl

/-- C9: for two datasets `A` and `B`, the joint log-likelihood at
`theta = [a, b, c, d, e, va, vb]` is the sum of the single-dataset
log-likelihoods, each with the same orbital parameters and its own offset
(`va` for `A`, `vb` for `B`). -/
theorem lnlike_additive (log : α → α) (twopi : α) (orbit : OrbitModel α)
    (tA rvA eA tB rvB eB : List α) (gJ gA gB : List α)
    (bJ bA bB : List (α × α)) (a b c d e va vb : α) :
    lnlike log twopi orbit ⟨[tA, tB], [rvA, rvB], [eA, eB], gJ, bJ, 2⟩
        [a, b, c, d, e, va, vb]
      = lnlike log twopi orbit ⟨[tA], [rvA], [eA], gA, bA, 1⟩
          [a, b, c, d, e, va]
        + lnlike log twopi orbit ⟨[tB], [rvB], [eB], gB, bB, 1⟩
            [a, b, c, d, e, vb] := by
  have key : ∀ X Y : α, -(1 / 2 : α) * ((0 + X) + Y)
      = -(1 / 2) * (0 + X) + -(1 / 2) * (0 + Y) := by
    intro X Y
    ring
  exact key
    (dataset_like log twopi orbit ⟨[tA, tB], [rvA, rvB], [eA, eB], gJ, bJ, 2⟩
      [a, b, c, d, e, va, vb] 0)
    (dataset_like log twopi orbit ⟨[tA, tB], [rvA, rvB], [eA, eB], gJ, bJ, 2⟩
      [a, b, c, d, e, va, vb] 1)

/-- C10: the constructor accepts `n_datasets = 0` with a guess of length 5,
and for every estimator with zero datasets the log-likelihood is `0` for
every `theta`, so the log-posterior coincides with the flat prior alone. -/
theorem zero_datasets_spec (log : α → α) (twopi : α) :
    (∀ (t rv rv_err : List (List α)) (guess : List α) (ps : List (α × α))
        (bounds : List (α × α)), guess.length = 5 →
      init t rv rv_err guess (.multi ps) bounds 0
        = .ok ⟨t, rv, rv_err, guess, bounds ++ ps, 0⟩) ∧
    (∀ (orbit : OrbitModel α) (self : OrbitalParams α) (theta : List α),
      self.n_datasets = 0 →
      lnlike log twopi orbit self theta = 0 ∧
      lnprob log twopi orbit self theta = flat self theta) := by
  constructor
  · intro t rv rv_err guess ps bounds hg
    simp [init, hg]
  · intro orbit self theta h0
    have hlike : lnlike log twopi orbit self theta = 0 := by
      simp [lnlike, h0]
    refine ⟨hlike, ?_⟩
    rcases flat_cases self theta with hf | hf
    · simp [lnprob, hf, Xfloat.isfinite, Xfloat.add, hlike]
    · simp [lnprob, hf, Xfloat.isfinite]

/-- Witness for C10: a concrete zero-dataset construction and the
vanishing likelihood at a concrete `theta`. -/
theorem zero_datasets_spec_witness :
    init ([] : List (List ℚ)) [] [] [0, 0, 0, 0, 0] (.multi [])
        default_bounds 0
      = .ok ⟨[], [], [], [0, 0, 0, 0, 0], default_bounds ++ [], 0⟩ ∧
    lnlike log0 7 orbit0 ⟨[], [], [], [0, 0, 0, 0, 0], default_bounds, 0⟩
        [1, 1, 1, 1, 1] = 0 ∧
    lnprob log0 7 orbit0 ⟨[], [], [], [0, 0, 0, 0, 0], default_bounds, 0⟩
        [1, 1, 1, 1, 1]
      = flat ⟨[], [], [], [0, 0, 0, 0, 0], default_bounds, 0⟩
          [1, 1, 1, 1, 1] :=
  ⟨(zero_datasets_spec log0 7).1 [] [] [] [0, 0, 0, 0, 0] [] default_bounds
      (by decide),
   ((zero_datasets_spec log0 7).2 orbit0
      ⟨[], [], [], [0, 0, 0, 0, 0], default_bounds, 0⟩ [1, 1, 1, 1, 1]
      rfl).1,
   ((zero_datasets_spec log0 7).2 orbit0
      ⟨[], [], [], [0, 0, 0, 0, 0], default_bounds, 0⟩ [1, 1, 1, 1, 1]
      rfl).2⟩

end Keppy
